import Mathlib

/-
Verification development for the `kodi.tvmaze.scrobbler` repository.

The embedding covers:
- `LocalizationService` from `script.tvmaze.scrobbler/libs/kodi_service.py`
  (catalog parsing `_parse_strings_po`, the md5-gated pickle cache in
  `_load_strings_mapping`, the `__init__` existence check, and `gettext`);
- `debug_exception` from the same file;
- `get_tvshows`, `get_episodes` and `set_episode_playcount` from
  `script.tvmaze/libs/kodi_api.py`.

Python machinery that is external to the repository (hashlib.md5, the pickle
codec, the Kodi JSON-RPC transport and `Addon.getLocalizedString`) is modelled
as explicit collaborators: the digest is an arbitrary function
`md5hex : String -> String`, the pickle file stores the written Python value
directly, and the host services are function parameters.
-/

set_option autoImplicit false

/-- Python exceptions relevant to the embedded code.  `keyError` also stands
for the `TypeError` raised when subscripting a non-mapping unpickled value. -/
inductive PyError where
  | localizationError (msg : String)
  | ioError (msg : String)
  | unpicklingError
  | keyError
  | noDataError (msg : String)
  deriving DecidableEq

/-- A Python value successfully read back by `pickle.load` from the cache
file.  `record d m` is a dict carrying the keys `md5` (value `d`) and
`strings` (value `m`), the only shape `_load_strings_mapping` ever writes.
`mdOnly d` is a dict that has the `md5` key (value `d`) but lacks `strings`:
on it `mapping['md5']` succeeds and only `mapping['strings']` raises
`KeyError`.  `nonRecord` abstracts every unpickled value on which already
`mapping['md5']` raises a non-IOError exception (a non-mapping value, or a
dict without the `md5` key). -/
inductive PyObj where
  | record (md5 : String) (strings : List (String × Nat))
  | mdOnly (md5 : String)
  | nonRecord
  deriving DecidableEq

/-- Physical content of the cache file `strings-map.pickle`: either bytes on
which `pickle.load` raises (`garbage`), or a pickled value. -/
inductive CacheContent where
  | garbage
  | value (v : PyObj)
  deriving DecidableEq

/-- Writing the cache record, as in `_load_strings_mapping`:
`pickle.dump({'strings': strings_mapping, 'md5': strings_po_md5}, fo)`.
The pickle codec (Python stdlib) is modelled as storing the value itself. -/
def write_cache_record (digest : String) (strings : List (String × Nat)) : CacheContent :=
  CacheContent.value (PyObj.record digest strings)

/-- `open(path, 'rb')` followed by `pickle.load(fo)`: opening an absent file
raises `IOError`, unpickling garbage bytes raises `UnpicklingError`, and
otherwise the stored value is returned. -/
def pickle_load : Option CacheContent → Except PyError PyObj
  | none => Except.error (PyError.ioError "No such file or directory")
  | some CacheContent.garbage => Except.error PyError.unpicklingError
  | some (CacheContent.value v) => Except.ok v

/-- The subscript `mapping['md5']`: succeeds on any dict carrying the `md5`
key, raises `KeyError`/`TypeError` (modelled as `keyError`) otherwise. -/
def getMd5 : PyObj → Except PyError String
  | PyObj.record d _ => Except.ok d
  | PyObj.mdOnly d => Except.ok d
  | PyObj.nonRecord => Except.error PyError.keyError

/-- The subscript `mapping['strings']`: succeeds only on the full record. -/
def getStrings : PyObj → Except PyError (List (String × Nat))
  | PyObj.record _ m => Except.ok m
  | PyObj.mdOnly _ => Except.error PyError.keyError
  | PyObj.nonRecord => Except.error PyError.keyError

/-- Reading the whole persisted record back (open, unpickle, then both field
subscripts): yields the digest and the mapping of a full record, and the
first raised exception otherwise. -/
def read_cache_record (cache : Option CacheContent) :
    Except PyError (String × List (String × Nat)) :=
  match pickle_load cache with
  | Except.error e => Except.error e
  | Except.ok v =>
    match getMd5 v with
    | Except.error e => Except.error e
    | Except.ok d =>
      match getStrings v with
      | Except.error e => Except.error e
      | Except.ok m => Except.ok (d, m)

/-- Split a character list at newline characters, mirroring how the `re.M`
anchors `^`/`$` of `_parse_strings_po`'s regex segment the catalog text. -/
def splitLinesAux : List Char → List Char → List (List Char)
  | [], acc => [acc.reverse]
  | c :: rest, acc =>
    if c = '\n' then acc.reverse :: splitLinesAux rest [] else splitLinesAux rest (c :: acc)

/-- Lines of a character list (separator `\n`, a final fragment is a line). -/
def splitLines (cs : List Char) : List (List Char) :=
  splitLinesAux cs []

/-- Strip an expected head from a character list, returning the remainder. -/
def stripHead : List Char → List Char → Option (List Char)
  | [], cs => some cs
  | _ :: _, [] => none
  | p :: ps, c :: cs => if c = p then stripHead ps cs else none

/-- The literal text `msgctxt "#` opening the first regex line. -/
def ctxtHead : List Char :=
  ['m', 's', 'g', 'c', 't', 'x', 't', ' ', '"', '#']

/-- The literal text `msgid "` opening the second regex line. -/
def msgidHead : List Char :=
  ['m', 's', 'g', 'i', 'd', ' ', '"']

/-- Decimal value of a digit run, as `int(string_id)` computes it. -/
def digitsToNat (ds : List Char) : Nat :=
  ds.foldl (fun n c => n * 10 + (c.toNat - '0'.toNat)) 0

/-- Match one line against the regex fragment `^msgctxt "#(\d+?)"\r?` (the
`\d+?` capture must reach the closing quote, so it takes the whole digit run;
after the quote only an optional carriage return may remain before `\n`). -/
def parseCtxtLine (l : List Char) : Option Nat :=
  match stripHead ctxtHead l with
  | none => none
  | some rest =>
    let ds := rest.takeWhile Char.isDigit
    let rest2 := rest.dropWhile Char.isDigit
    if ds.isEmpty then none
    else if rest2 = ['"'] ∨ rest2 = ['"', '\r'] then some (digitsToNat ds)
    else none

/-- Match one line against the regex fragment `msgid "(.*)"\r?$`.  The greedy
`(.*)` followed by a backtracked `"` captures everything up to the last
double quote of the line (ignoring one optional trailing carriage return). -/
def parseMsgidLine (l : List Char) : Option (List Char) :=
  match stripHead msgidHead l with
  | none => none
  | some rest =>
    match rest.reverse with
    | '"' :: revText => some revText.reverse
    | '\r' :: '"' :: revText => some revText.reverse
    | _ => none

/-- A full two-line match of `^msgctxt "#(\d+?)"\r?\nmsgid "(.*)"\r?$`,
yielding the `(int(string_id), string)` pair of `re.findall`. -/
def matchPair (l1 l2 : List Char) : Option (Nat × List Char) :=
  match parseCtxtLine l1, parseMsgidLine l2 with
  | some i, some t => some (i, t)
  | _, _ => none

/-- Left-to-right scan implementing `re.findall` on the line sequence.
`pending = some i` records that the previous line matched the `msgctxt` half
and was not yet consumed by a full match.  When the current line matches the
`msgid` half, a full two-line match is emitted and both lines are consumed
(the emitted line cannot restart a match: `pending` resets to `none`, which
is also what `parseCtxtLine` returns for an `msgid` line).  Otherwise the
scan moves on, remembering whether the current line is a `msgctxt` line.
The lemmas `findPairs_cons_some` and `findPairs_cons_none` below recover the
two-line non-overlapping consumption of `re.findall` literally. -/
def findPairsAux : Option Nat → List (List Char) → List (Nat × List Char)
  | _, [] => []
  | pending, l :: rest =>
    match pending, parseMsgidLine l with
    | some i, some t => (i, t) :: findPairsAux none rest
    | _, _ => findPairsAux (parseCtxtLine l) rest

/-- The successive non-overlapping matches produced by `re.findall` over the
line sequence: scanning left to right, a match consumes its two lines. -/
def findPairs (lines : List (List Char)) : List (Nat × List Char) :=
  findPairsAux none lines

/-- Insertion into a Python dict: an existing key keeps its position and gets
the new value, a new key is appended (insertion order preserved). -/
def dictInsert (m : List (String × Nat)) (k : String) (v : Nat) : List (String × Nat) :=
  if m.any (fun p => p.1 = k) then m.map (fun p => if p.1 = k then (k, v) else p)
  else m ++ [(k, v)]

/-- Python dict lookup on the association list. -/
def dictLookup (m : List (String × Nat)) (k : String) : Option Nat :=
  match m.find? (fun p => p.1 = k) with
  | some p => some p.2
  | none => none

/-- The dict comprehension
`{string: int(string_id) for string_id, string in id_string_pairs if string}`:
pairs are inserted in order, empty strings are skipped, and a duplicate key
keeps the last value. -/
def buildMapping (pairs : List (Nat × List Char)) : List (String × Nat) :=
  pairs.foldl (fun m p => if p.2.isEmpty then m else dictInsert m (String.mk p.2) p.1) []

/-- `LocalizationService._parse_strings_po`: run the regex over the catalog
text and build the string-to-id dict. -/
def parse_strings_po (strings_po : String) : List (String × Nat) :=
  buildMapping (findPairs (splitLines strings_po.data))

/-- Modelled from the spec: the record-extraction rule stated in the spec's
words, "for each paired `msgctxt \x22#<id>\x22` / `msgid \x22<string>\x22`
occurring on consecutive lines, if `<string>` is non-empty, set
`mapping[<string>] = <id>`" — every consecutive line pair is examined. -/
def consecutivePairs (lines : List (List Char)) : List (Nat × List Char) :=
  (lines.zip lines.tail).filterMap (fun lp => matchPair lp.1 lp.2)

/-- Modelled from the spec: parsing as the spec describes it, over all
consecutive-line pairs, with the same dict-building rule. -/
def parse_strings_po_spec (strings_po : String) : List (String × Nat) :=
  buildMapping (consecutivePairs (splitLines strings_po.data))

/-- Observable outcome of one `_load_strings_mapping` call: the returned
mapping (or the propagated exception), the cache file afterwards, whether the
catalog text was parsed, and whether the cache file was written. -/
structure LoadResult where
  result : Except PyError (List (String × Nat))
  cacheFile : Option CacheContent
  parsedCatalog : Bool
  wroteCache : Bool

/-- The `except IOError` handler body of `_load_strings_mapping`: parse the
catalog, assemble the record and write it to the cache file. -/
def rebuildMapping (md5hex : String → String) (strings_po : String) : LoadResult :=
  let digest := md5hex strings_po
  let m := parse_strings_po strings_po
  ⟨Except.ok m, some (write_cache_record digest m), true, true⟩

/-- `LocalizationService._load_strings_mapping`.  The catalog bytes are read
and hashed.  The `try` block covers `open` + `pickle.load` + the
`mapping['md5']` subscript and raises `IOError('English strings.po has been
updated')` on a digest mismatch; the `except IOError` arm rebuilds the
mapping and persists the full record (after which `return mapping['strings']`
on the rebuilt dict always succeeds, which `rebuildMapping` models).  A
non-IOError exception from inside the `try` propagates uncaught, and so does
the `KeyError` of the final `return mapping['strings']`, which sits outside
the `try` and fires when the unpickled dict passed the digest check but
lacks the `strings` key. -/
def load_strings_mapping (md5hex : String → String) (strings_po : String)
    (cache : Option CacheContent) : LoadResult :=
  let digest := md5hex strings_po
  let tried : Except PyError PyObj :=
    match pickle_load cache with
    | Except.error e => Except.error e
    | Except.ok v =>
      match getMd5 v with
      | Except.error e => Except.error e
      | Except.ok d =>
        if d ≠ digest then Except.error (PyError.ioError "English strings.po has been updated")
        else Except.ok v
  match tried with
  | Except.ok v =>
    match getStrings v with
    | Except.ok m => ⟨Except.ok m, cache, false, false⟩
    | Except.error e => ⟨Except.error e, cache, false, false⟩
  | Except.error (PyError.ioError _) => rebuildMapping md5hex strings_po
  | Except.error e => ⟨Except.error e, cache, false, false⟩

/-- `LocalizationService.__init__`: if the catalog file is absent, raise
`LocalizationError('Missing English strings.po localization file')` before
touching the cache; otherwise load the mapping. -/
def LocalizationService_init (md5hex : String → String) (catalog : Option String)
    (cache : Option CacheContent) : LoadResult :=
  match catalog with
  | none =>
    ⟨Except.error (PyError.localizationError "Missing English strings.po localization file"),
      cache, false, false⟩
  | some po => load_strings_mapping md5hex po cache

/-- `LocalizationService.gettext`: look the English string up in the mapping;
a missing key raises `LocalizationError`; otherwise delegate the id to the
host collaborator `ADDON.getLocalizedString`. -/
def gettext (mapping : List (String × Nat)) (getLocalizedString : Nat → String)
    (en_string : String) : Except PyError String :=
  match dictLookup mapping en_string with
  | some i => Except.ok (getLocalizedString i)
  | none =>
    Except.error (PyError.localizationError
      ("Unable to find English string \"" ++ en_string ++ "\" in strings.po"))

/-- The `debug_exception` context manager: run the block; when it raises, pass
one diagnostic message to `logger_func` and re-raise the same exception; when
it completes, do nothing.  The message formatting (EXCEPTION_TEMPLATE filled
from `inspect.trace`, `uname()`, `sys` and Kodi info labels) reads interpreter
and host state and is abstracted into the function `diag`; the value returned
models the block outcome together with the list of logged messages. -/
def debug_exception {α : Type} (diag : PyError → String) (block : Except PyError α) :
    Except PyError α × List String :=
  match block with
  | Except.ok a => (Except.ok a, [])
  | Except.error e => (Except.error e, [diag e])

/-- JSON values decoded from a Kodi JSON-RPC reply. -/
inductive JValue where
  | null
  | jbool (b : Bool)
  | jnum (n : Int)
  | jstr (s : String)
  | jarr (items : List JValue)
  | jobj (fields : List (String × JValue))

/-- Python truthiness (`bool(v)`) of a decoded JSON value: `None`, `False`,
zero, and empty string/list/dict are falsy.  This is the test the source
applies via `if not result.get(key)`. -/
def truthy : JValue → Bool
  | JValue.null => false
  | JValue.jbool b => b
  | JValue.jnum n => n != 0
  | JValue.jstr s => s != ""
  | JValue.jarr items => !items.isEmpty
  | JValue.jobj fields => !fields.isEmpty

/-- `dict.get` on the decoded RPC result object. -/
def dictGetJ (fields : List (String × JValue)) (k : String) : Option JValue :=
  match fields.find? (fun p => p.1 = k) with
  | some p => some p.2
  | none => none

/-- `get_tvshows` from `kodi_api.py`, parametrised by the decoded `result`
object the transport returned: `if not result.get('tvshows')` raises
`NoDataError('Kodi medialibrary has no TV shows')`; otherwise the function
returns `result['tvshows']` unchanged. -/
def get_tvshows (result : List (String × JValue)) : Except PyError JValue :=
  match dictGetJ result "tvshows" with
  | none => Except.error (PyError.noDataError "Kodi medialibrary has no TV shows")
  | some v =>
    if truthy v then Except.ok v
    else Except.error (PyError.noDataError "Kodi medialibrary has no TV shows")

/-- `get_episodes` from `kodi_api.py`, parametrised by the decoded `result`
object: `if not result.get('episodes')` raises
`NoDataError('TV show {} has no episodes'.format(tvshowid))`; otherwise the
function returns `result['episodes']` unchanged. -/
def get_episodes (tvshowid : Int) (result : List (String × JValue)) : Except PyError JValue :=
  match dictGetJ result "episodes" with
  | none =>
    Except.error (PyError.noDataError ("TV show " ++ toString tvshowid ++ " has no episodes"))
  | some v =>
    if truthy v then Except.ok v
    else
      Except.error (PyError.noDataError ("TV show " ++ toString tvshowid ++ " has no episodes"))

/-- `int(bool(n))` on a Python integer. -/
def intBool (n : Int) : Int :=
  if n = 0 then 0 else 1

/-- Parameters of a `VideoLibrary.SetEpisodeDetails` update request. -/
structure EpisodeUpdate where
  episodeid : Int
  playcount : Int
  deriving DecidableEq

/-- `set_episode_playcount` from `kodi_api.py`: fetch the episode's current
playcount through `get_episode_details` (modelled by the host collaborator
`getPlaycount`); send the `SetEpisodeDetails` RPC exactly when the requested
playcount differs from `int(bool(original_playcount))`.  The value returned
is the update request issued, if any. -/
def set_episode_playcount (getPlaycount : Int → Int) (episode_id : Int) (playcount : Int) :
    Option EpisodeUpdate :=
  let original_playcount := getPlaycount episode_id
  if playcount ≠ intBool original_playcount then some ⟨episode_id, playcount⟩ else none

/-- Effect of an optional `SetEpisodeDetails` request on the library's stored
playcounts (the host database, indexed by episode id). -/
def applyUpdate (playcounts : Int → Int) : Option EpisodeUpdate → Int → Int
  | none => playcounts
  | some u => fun i => if i = u.episodeid then u.playcount else playcounts i

/-- Proof scaffolding: the pair contributed by a head line that completes a
match pending from the previous line. -/
def pendingPairs (pending : Option Nat) (lines : List (List Char)) : List (Nat × List Char) :=
  match pending, lines with
  | some i, l :: _ =>
    match parseMsgidLine l with
    | some t => [(i, t)]
    | none => []
  | _, _ => []

theorem stripHead_eq_append {ps : List Char} : ∀ {l r : List Char},
    stripHead ps l = some r → l = ps ++ r := by
  induction ps with
  | nil =>
    intro l r h
    simp [stripHead] at h
    simp [h]
  | cons p ps ih =>
    intro l r h
    cases l with
    | nil => simp [stripHead] at h
    | cons c cs =>
      simp only [stripHead] at h
      split at h
      · rename_i hc
        subst hc
        simp [ih h]
      · exact absurd h (by simp)

/-- A line matching the `msgid` half cannot match the `msgctxt` half (their
literal openings differ), so an emitted second line never restarts a match. -/
theorem parseMsgidLine_not_ctxt {l t : List Char} (h : parseMsgidLine l = some t) :
    parseCtxtLine l = none := by
  cases hs : stripHead msgidHead l with
  | none => simp [parseMsgidLine, hs] at h
  | some rest =>
    have hl : l = msgidHead ++ rest := stripHead_eq_append hs
    subst hl
    rfl

/-- A line matching the `msgctxt` half cannot match the `msgid` half. -/
theorem parseCtxtLine_not_msgid {l : List Char} {i : Nat} (h : parseCtxtLine l = some i) :
    parseMsgidLine l = none := by
  cases hs : stripHead ctxtHead l with
  | none => simp [parseCtxtLine, hs] at h
  | some rest =>
    have hl : l = ctxtHead ++ rest := stripHead_eq_append hs
    subst hl
    rfl

theorem pendingPairs_none (lines : List (List Char)) : pendingPairs none lines = [] := by
  cases lines <;> rfl

theorem consecutivePairs_cons (l : List Char) (rest : List (List Char)) :
    consecutivePairs (l :: rest) = pendingPairs (parseCtxtLine l) rest ++ consecutivePairs rest := by
  cases rest with
  | nil =>
    cases h1 : parseCtxtLine l <;> simp [consecutivePairs, pendingPairs]
  | cons l2 rs =>
    cases h1 : parseCtxtLine l <;> cases h2 : parseMsgidLine l2 <;>
      simp [consecutivePairs, pendingPairs, matchPair, h1, h2, List.filterMap_cons]

theorem findPairsAux_eq (lines : List (List Char)) : ∀ pending : Option Nat,
    findPairsAux pending lines = pendingPairs pending lines ++ consecutivePairs lines := by
  induction lines with
  | nil => intro pending; cases pending <;> rfl
  | cons l rest ih =>
    intro pending
    rw [consecutivePairs_cons]
    cases pending with
    | none =>
      have hstep : findPairsAux none (l :: rest) = findPairsAux (parseCtxtLine l) rest := by
        cases hm : parseMsgidLine l <;> simp [findPairsAux, hm]
      rw [hstep, ih, pendingPairs_none]
      rfl
    | some i =>
      cases hm : parseMsgidLine l with
      | none =>
        have hstep : findPairsAux (some i) (l :: rest) = findPairsAux (parseCtxtLine l) rest := by
          simp [findPairsAux, hm]
        rw [hstep, ih]
        simp [pendingPairs, hm]
      | some t =>
        have hc : parseCtxtLine l = none := parseMsgidLine_not_ctxt hm
        have hstep : findPairsAux (some i) (l :: rest) = (i, t) :: findPairsAux none rest := by
          simp [findPairsAux, hm]
        rw [hstep, ih, pendingPairs_none, hc, pendingPairs_none]
        simp [pendingPairs, hm]

/-- The scan collects exactly the matches over all consecutive line pairs. -/
theorem findPairs_eq_consecutive (lines : List (List Char)) :
    findPairs lines = consecutivePairs lines := by
  rw [findPairs, findPairsAux_eq, pendingPairs_none]
  rfl

/-- Fidelity of the scan to `re.findall`: a full two-line match is emitted and
consumes both lines. -/
theorem findPairs_cons_some {l1 l2 : List Char} {p : Nat × List Char} (rest : List (List Char))
    (h : matchPair l1 l2 = some p) : findPairs (l1 :: l2 :: rest) = p :: findPairs rest := by
  cases hx : parseCtxtLine l1 with
  | none => cases hy : parseMsgidLine l2 <;> simp [matchPair, hx, hy] at h
  | some i =>
    cases hy : parseMsgidLine l2 with
    | none => simp [matchPair, hx, hy] at h
    | some t =>
      simp [matchPair, hx, hy] at h
      have hm1 : parseMsgidLine l1 = none := parseCtxtLine_not_msgid hx
      subst h
      simp [findPairs, findPairsAux, hm1, hx, hy]

/-- Fidelity of the scan to `re.findall`: when the first two lines do not
form a match, scanning restarts at the second line. -/
theorem findPairs_cons_none {l1 l2 : List Char} (rest : List (List Char))
    (h : matchPair l1 l2 = none) : findPairs (l1 :: l2 :: rest) = findPairs (l2 :: rest) := by
  cases hx : parseCtxtLine l1 with
  | none => cases hm1 : parseMsgidLine l1 <;> simp [findPairs, findPairsAux, hm1, hx]
  | some i =>
    cases hy : parseMsgidLine l2 with
    | some t => simp [matchPair, hx, hy] at h
    | none =>
      have hm1 : parseMsgidLine l1 = none := parseCtxtLine_not_msgid hx
      simp [findPairs, findPairsAux, hm1, hx, hy]

/-- A fresh cache written with the current digest is accepted unchanged:
no parse, no write. -/
theorem load_hit (md5hex : String → String) (po : String) (m : List (String × Nat)) :
    load_strings_mapping md5hex po (some (write_cache_record (md5hex po) m)) =
      ⟨Except.ok m, some (write_cache_record (md5hex po) m), false, false⟩ := by
  simp [load_strings_mapping, pickle_load, getMd5, getStrings, write_cache_record]

theorem rebuild_eq (md5hex : String → String) (po : String) :
    rebuildMapping md5hex po =
      ⟨Except.ok (parse_strings_po po),
        some (write_cache_record (md5hex po) (parse_strings_po po)), true, true⟩ := rfl

/-- Claim C2: for every catalog text, parsing produces exactly the mapping
over consecutive-line `msgctxt`/`msgid` pairs with non-empty string (the
source's non-overlapping `re.findall` scan coincides with the spec's
per-consecutive-pair rule), and on the catalog with records #100 "Play",
#101 "", #102 "Stop" the result is exactly the Play/Stop mapping, the
empty-string record contributing no entry. -/
theorem parse_strings_po_refines :
    (∀ s : String, parse_strings_po s = parse_strings_po_spec s)
    ∧ parse_strings_po
        "msgctxt \"#100\"\nmsgid \"Play\"\nmsgctxt \"#101\"\nmsgid \"\"\nmsgctxt \"#102\"\nmsgid \"Stop\"\n"
      = [("Play", 100), ("Stop", 102)] := by
  constructor
  · intro s
    rw [parse_strings_po, parse_strings_po_spec, findPairs_eq_consecutive]
  · decide

/-- Claim C5: writing the cache record `{digest, mapping}` and reading it
back yields an equal record (persistence round-trips). -/
theorem cache_record_roundtrip (d : String) (m : List (String × Nat)) :
    read_cache_record (some (write_cache_record d m)) = Except.ok (d, m) := rfl

/-- Claim C6: with a nonexistent catalog path, initialization fails with the
`LocalizationError` for the missing strings.po file, and the cache file is
neither written nor changed. -/
theorem init_missing_catalog (md5hex : String → String) (cache : Option CacheContent) :
    LocalizationService_init md5hex none cache =
      ⟨Except.error (PyError.localizationError "Missing English strings.po localization file"),
        cache, false, false⟩ := rfl

/-- Claim C1 (amended): initialization does not fail whenever the cache
read raises an `IOError` (absent file) or the unpickled value's `md5` field
differs from the current digest — including a partial record that lacks the
`strings` field — in all of which it falls back to parsing the catalog,
rebuilds the mapping, writes the cache and completes; it does fail, leaving
the cache file unchanged and unwritten, when the cache holds unpicklable
bytes, a value on which already `mapping['md5']` raises, or a value whose
`md5` field equals the current digest but which lacks `strings` (the
`KeyError` of the final `return mapping['strings']`). -/
theorem cache_fallback_and_failure (md5hex : String → String) (po : String) :
    LocalizationService_init md5hex (some po) none =
      ⟨Except.ok (parse_strings_po po),
        some (write_cache_record (md5hex po) (parse_strings_po po)), true, true⟩
    ∧ LocalizationService_init md5hex (some po) (some CacheContent.garbage) =
      ⟨Except.error PyError.unpicklingError, some CacheContent.garbage, false, false⟩
    ∧ LocalizationService_init md5hex (some po) (some (CacheContent.value PyObj.nonRecord)) =
      ⟨Except.error PyError.keyError, some (CacheContent.value PyObj.nonRecord), false, false⟩
    ∧ (∀ d, d ≠ md5hex po →
        LocalizationService_init md5hex (some po) (some (CacheContent.value (PyObj.mdOnly d))) =
          ⟨Except.ok (parse_strings_po po),
            some (write_cache_record (md5hex po) (parse_strings_po po)), true, true⟩)
    ∧ LocalizationService_init md5hex (some po)
        (some (CacheContent.value (PyObj.mdOnly (md5hex po)))) =
      ⟨Except.error PyError.keyError,
        some (CacheContent.value (PyObj.mdOnly (md5hex po))), false, false⟩ := by
  refine ⟨rfl, rfl, rfl, ?_, ?_⟩
  · intro d hd
    simp [LocalizationService_init, load_strings_mapping, pickle_load, getMd5,
      rebuildMapping, hd]
  · simp [LocalizationService_init, load_strings_mapping, pickle_load, getMd5, getStrings]

/-- Claim C1 (witness): a pickled dict carrying only a stale `md5` key is
absorbed by the caught digest-mismatch `IOError`: initialization rebuilds,
writes the cache and completes. -/
theorem cache_fallback_witness :
    ("stale" : String) ≠ "msgctxt \"#2\"\nmsgid \"B\""
    ∧ LocalizationService_init (fun s : String => s) (some "msgctxt \"#2\"\nmsgid \"B\"")
        (some (CacheContent.value (PyObj.mdOnly "stale"))) =
      ⟨Except.ok (parse_strings_po "msgctxt \"#2\"\nmsgid \"B\""),
        some (write_cache_record "msgctxt \"#2\"\nmsgid \"B\""
          (parse_strings_po "msgctxt \"#2\"\nmsgid \"B\"")), true, true⟩ :=
  ⟨by decide,
    (cache_fallback_and_failure (fun s : String => s) "msgctxt \"#2\"\nmsgid \"B\"").2.2.2.1
      "stale" (by decide)⟩

/-- Claim C1 (counterexample): a cache file of unpicklable bytes makes
initialization fail — `pickle.load` raises `UnpicklingError`, which the
`except IOError` handler does not catch — refuting "for every malformed
cache-file content, initialize() does not fail". -/
theorem corrupt_cache_counterexample :
    (LocalizationService_init (fun s => s) (some "msgctxt \"#100\"\nmsgid \"Play\"\n")
        (some CacheContent.garbage)).result = Except.error PyError.unpicklingError := rfl

/-- Claim C3: a stored record whose digest differs from the current
catalog's digest makes the load re-parse the catalog and overwrite the cache
with the new digest and the rebuilt mapping; an immediately following load
of the unchanged catalog then takes the cache-hit path (no parse, no
write). -/
theorem stale_cache_self_healing (md5hex : String → String) (po d : String)
    (m0 : List (String × Nat)) (h : d ≠ md5hex po) :
    load_strings_mapping md5hex po (some (write_cache_record d m0)) =
      ⟨Except.ok (parse_strings_po po),
        some (write_cache_record (md5hex po) (parse_strings_po po)), true, true⟩
    ∧ load_strings_mapping md5hex po
        (some (write_cache_record (md5hex po) (parse_strings_po po))) =
      ⟨Except.ok (parse_strings_po po),
        some (write_cache_record (md5hex po) (parse_strings_po po)), false, false⟩ := by
  refine ⟨?_, load_hit md5hex po (parse_strings_po po)⟩
  simp [load_strings_mapping, pickle_load, getMd5, write_cache_record, rebuildMapping, h]

/-- Claim C3 (witness): concrete stale cache, rebuilt then hit. -/
theorem stale_cache_witness :
    ("stale" : String) ≠ "msgctxt \"#1\"\nmsgid \"A\""
    ∧ (load_strings_mapping (fun s : String => s) "msgctxt \"#1\"\nmsgid \"A\""
          (some (write_cache_record "stale" [])) =
        ⟨Except.ok (parse_strings_po "msgctxt \"#1\"\nmsgid \"A\""),
          some (write_cache_record "msgctxt \"#1\"\nmsgid \"A\""
            (parse_strings_po "msgctxt \"#1\"\nmsgid \"A\"")), true, true⟩
      ∧ load_strings_mapping (fun s : String => s) "msgctxt \"#1\"\nmsgid \"A\""
          (some (write_cache_record "msgctxt \"#1\"\nmsgid \"A\""
            (parse_strings_po "msgctxt \"#1\"\nmsgid \"A\""))) =
        ⟨Except.ok (parse_strings_po "msgctxt \"#1\"\nmsgid \"A\""),
          some (write_cache_record "msgctxt \"#1\"\nmsgid \"A\""
            (parse_strings_po "msgctxt \"#1\"\nmsgid \"A\"")), false, false⟩) :=
  ⟨by decide,
    stale_cache_self_healing (fun s : String => s) "msgctxt \"#1\"\nmsgid \"A\"" "stale" []
      (by decide)⟩

/-- Claim C4: if a load of the mapping succeeds, loading again with the
catalog unchanged returns the same mapping, takes the cache-hit path, and
performs no parse and no write, leaving the cache file as it was. -/
theorem load_mapping_idempotent (md5hex : String → String) (po : String)
    (c0 : Option CacheContent) (m : List (String × Nat))
    (h : (load_strings_mapping md5hex po c0).result = Except.ok m) :
    load_strings_mapping md5hex po ((load_strings_mapping md5hex po c0).cacheFile) =
      ⟨Except.ok m, (load_strings_mapping md5hex po c0).cacheFile, false, false⟩ := by
  cases c0 with
  | none =>
    have h1 : load_strings_mapping md5hex po none = rebuildMapping md5hex po := rfl
    rw [h1, rebuild_eq] at h ⊢
    simp only [Except.ok.injEq] at h
    rw [load_hit, h]
  | some cc =>
    cases cc with
    | garbage => simp [load_strings_mapping, pickle_load] at h
    | value v =>
      cases v with
      | nonRecord => simp [load_strings_mapping, pickle_load, getMd5] at h
      | mdOnly d =>
        by_cases hd : d = md5hex po
        · simp [load_strings_mapping, pickle_load, getMd5, getStrings, hd] at h
        · have h1 : load_strings_mapping md5hex po
              (some (CacheContent.value (PyObj.mdOnly d))) =
              rebuildMapping md5hex po := by
            simp [load_strings_mapping, pickle_load, getMd5, hd]
          rw [h1, rebuild_eq] at h ⊢
          simp only [Except.ok.injEq] at h
          rw [load_hit, h]
      | record d m0 =>
        by_cases hd : d = md5hex po
        · have h1 : load_strings_mapping md5hex po
              (some (CacheContent.value (PyObj.record d m0))) =
              ⟨Except.ok m0, some (CacheContent.value (PyObj.record d m0)), false, false⟩ := by
            simp [load_strings_mapping, pickle_load, getMd5, getStrings, hd]
          rw [h1] at h ⊢
          simp only [Except.ok.injEq] at h
          subst h
          exact h1
        · have h1 : load_strings_mapping md5hex po
              (some (CacheContent.value (PyObj.record d m0))) =
              rebuildMapping md5hex po := by
            simp [load_strings_mapping, pickle_load, getMd5, hd]
          rw [h1, rebuild_eq] at h ⊢
          simp only [Except.ok.injEq] at h
          rw [load_hit, h]

/-- Claim C4 (witness): starting from no cache, a first load succeeds and a
second load of the unchanged catalog is a no-write cache hit. -/
theorem load_mapping_idempotent_witness :
    (load_strings_mapping (fun s : String => s) "msgctxt \"#1\"\nmsgid \"A\"" none).result =
      Except.ok (parse_strings_po "msgctxt \"#1\"\nmsgid \"A\"")
    ∧ load_strings_mapping (fun s : String => s) "msgctxt \"#1\"\nmsgid \"A\""
        ((load_strings_mapping (fun s : String => s) "msgctxt \"#1\"\nmsgid \"A\""
          none).cacheFile) =
      ⟨Except.ok (parse_strings_po "msgctxt \"#1\"\nmsgid \"A\""),
        (load_strings_mapping (fun s : String => s) "msgctxt \"#1\"\nmsgid \"A\""
          none).cacheFile,
        false, false⟩ :=
  ⟨rfl, load_mapping_idempotent (fun s : String => s) "msgctxt \"#1\"\nmsgid \"A\"" none
    (parse_strings_po "msgctxt \"#1\"\nmsgid \"A\"") rfl⟩

/-- Claim C7: `gettext` on a string absent from the in-memory mapping fails
with the mapper's `LocalizationError`; on a string present in the mapping it
returns the host localization service's text for the mapped id. -/
theorem gettext_lookup (mapping : List (String × Nat)) (getLocalizedString : Nat → String)
    (s : String) :
    (dictLookup mapping s = none →
      gettext mapping getLocalizedString s =
        Except.error (PyError.localizationError
          ("Unable to find English string \"" ++ s ++ "\" in strings.po")))
    ∧ ∀ i, dictLookup mapping s = some i →
        gettext mapping getLocalizedString s = Except.ok (getLocalizedString i) := by
  constructor
  · intro h; simp [gettext, h]
  · intro i h; simp [gettext, h]

/-- Claim C7 (witness): with mapping {"Play": 100}, looking up "Stop" fails
and looking up "Play" returns the host service's text for 100. -/
theorem gettext_lookup_witness :
    (dictLookup [("Play", 100)] "Stop" = none ∧
      gettext [("Play", 100)] (fun i => toString i) "Stop" =
        Except.error (PyError.localizationError
          ("Unable to find English string \"" ++ "Stop" ++ "\" in strings.po")))
    ∧ (dictLookup [("Play", 100)] "Play" = some 100 ∧
      gettext [("Play", 100)] (fun i => toString i) "Play" = Except.ok (toString 100)) :=
  ⟨⟨rfl, (gettext_lookup [("Play", 100)] (fun i => toString i) "Stop").1 rfl⟩,
    ⟨rfl, (gettext_lookup [("Play", 100)] (fun i => toString i) "Play").2 100 rfl⟩⟩

/-- Claim C8: `get_tvshows` and `get_episodes` raise `NoDataError` exactly
when the expected result key is absent or maps to an empty (Python-falsy,
the source's `if not result.get(key)` test, which on the list values the
host returns means an empty list) value, and otherwise return that key's
value unchanged. -/
theorem rpc_no_data (result : List (String × JValue)) (tvshowid : Int) :
    ((∃ msg, get_tvshows result = Except.error (PyError.noDataError msg)) ↔
       dictGetJ result "tvshows" = none ∨
         ∃ v, dictGetJ result "tvshows" = some v ∧ truthy v = false)
    ∧ (∀ v, dictGetJ result "tvshows" = some v → truthy v = true →
        get_tvshows result = Except.ok v)
    ∧ ((∃ msg, get_episodes tvshowid result = Except.error (PyError.noDataError msg)) ↔
       dictGetJ result "episodes" = none ∨
         ∃ v, dictGetJ result "episodes" = some v ∧ truthy v = false)
    ∧ (∀ v, dictGetJ result "episodes" = some v → truthy v = true →
        get_episodes tvshowid result = Except.ok v) := by
  refine ⟨?_, ?_, ?_, ?_⟩
  · cases hg : dictGetJ result "tvshows" with
    | none => simp [get_tvshows, hg]
    | some v => cases ht : truthy v <;> simp [get_tvshows, hg, ht]
  · intro v hg ht; simp [get_tvshows, hg, ht]
  · cases hg : dictGetJ result "episodes" with
    | none => simp [get_episodes, hg]
    | some v => cases ht : truthy v <;> simp [get_episodes, hg, ht]
  · intro v hg ht; simp [get_episodes, hg, ht]

/-- Claim C8 (witness): a non-empty tvshows list is returned unchanged; a
response without an episodes key raises `NoDataError`. -/
theorem rpc_no_data_witness :
    get_tvshows [("tvshows", JValue.jarr [JValue.null])] = Except.ok (JValue.jarr [JValue.null])
    ∧ ∃ msg, get_episodes 7 [] = Except.error (PyError.noDataError msg) :=
  ⟨(rpc_no_data [("tvshows", JValue.jarr [JValue.null])] 7).2.1 (JValue.jarr [JValue.null]) rfl rfl,
    (rpc_no_data [] 7).2.2.1.mpr (Or.inl rfl)⟩

/-- Claim C9: `debug_exception` logs exactly one diagnostic message through
the supplied logger function and re-raises the very same exception value; a
block that raises nothing is passed through with no log written. -/
theorem debug_exception_identity (α : Type) (diag : PyError → String) :
    (∀ e : PyError,
      debug_exception diag (Except.error e : Except PyError α) = (Except.error e, [diag e]))
    ∧ ∀ a : α, debug_exception diag (Except.ok a) = (Except.ok a, []) :=
  ⟨fun _ => rfl, fun _ => rfl⟩

/-- Claim C10: `set_episode_playcount` issues the `SetEpisodeDetails` update
request exactly when the requested playcount differs from the original
playcount normalised to 0 or 1 (`int(bool(original))`); when they agree no
request is issued and the stored playcounts are unchanged. -/
theorem set_episode_playcount_frame (playcounts : Int → Int) (eid pc : Int) :
    (set_episode_playcount playcounts eid pc ≠ none ↔ pc ≠ intBool (playcounts eid))
    ∧ (pc = intBool (playcounts eid) →
        set_episode_playcount playcounts eid pc = none
        ∧ applyUpdate playcounts (set_episode_playcount playcounts eid pc) = playcounts) := by
  constructor
  · by_cases h : pc = intBool (playcounts eid) <;> simp [set_episode_playcount, h]
  · intro h
    have h1 : set_episode_playcount playcounts eid pc = none := by
      simp [set_episode_playcount, h]
    refine ⟨h1, ?_⟩
    rw [h1]
    rfl

/-- Claim C10 (witness): original playcount 3 normalises to 1, so requesting
playcount 1 issues no update and leaves the library unchanged. -/
theorem set_episode_playcount_witness :
    ((1 : Int) = intBool ((fun _ : Int => (3 : Int)) 7))
    ∧ set_episode_playcount (fun _ : Int => (3 : Int)) 7 1 = none
    ∧ applyUpdate (fun _ : Int => (3 : Int))
        (set_episode_playcount (fun _ : Int => (3 : Int)) 7 1) = (fun _ : Int => (3 : Int)) := by
  have h : (1 : Int) = intBool ((fun _ : Int => (3 : Int)) 7) := by decide
  obtain ⟨hn, ha⟩ := (set_episode_playcount_frame (fun _ : Int => (3 : Int)) 7 1).2 h
  exact ⟨h, hn, ha⟩
